import Mathlib

/-!
Verification development for the financial-document analysis core
(`tools.py`): the metric extractor shared by `InvestmentTool._run` and
`RiskTool._run`, the investment insight engine, and the risk assessment
engine.

The embedding mirrors the Python source:
* `normalizeWs` models `" ".join(data.split())`.
* The extractor models `re.findall` for the four labeled-number patterns
  `revenue[s]?\s+[\w\s]*?\$?([\d,.]+)`, `(net income|profit)[\w\s]*?\$?([\d,.]+)`,
  `(debt|liabilities)[\w\s]*?\$?([\d,.]+)`, `(asset[s]?)[\w\s]*?\$?([\d,.]+)`
  as a left-to-right scan: at each start position the label must match
  case-insensitively, then the lazy `[\w\s]*?` skips the shortest run of
  word/space characters until `\$?([\d,.]+)` matches, the greedy capture
  takes the maximal run of digit/comma/dot characters, and scanning
  resumes after the capture.  Character classes are taken at their ASCII
  meaning, matching the ASCII inputs these tools receive.
* Extracted integers are represented exactly; means and ratios are
  rationals (the Python values are floats over exactly extracted
  integers; every claim below concerns threshold logic on these ratios).
* A Python `ZeroDivisionError` is modelled as `Except.error ()`.
-/

/-- Python whitespace for `str.split()` / `\s` (ASCII part). -/
def pyIsSpace (c : Char) : Bool :=
  c = ' ' || c = '\t' || c = '\n' || c = '\r' || c = '\x0b' || c = '\x0c'

/-- Python `\w` (ASCII part): letters, digits, underscore. -/
def pyIsWord (c : Char) : Bool := c.isAlphanum || c = '_'

/-- Characters allowed in a captured numeral by `[\d,.]`. -/
def isNumChar (c : Char) : Bool := c.isDigit || c = ',' || c = '.'

/-- Accumulator splitter behind `normalize`: Python `str.split()`
(split on whitespace runs, dropping empty pieces). -/
def splitWsAux (cur : List Char) : List Char → List (List Char)
  | [] => if cur = [] then [] else [cur.reverse]
  | c :: rest =>
    if pyIsSpace c then
      if cur = [] then splitWsAux [] rest else cur.reverse :: splitWsAux [] rest
    else splitWsAux (c :: cur) rest

/-- Join word lists with a single separator character. -/
def joinWith (sep : Char) : List (List Char) → List Char
  | [] => []
  | [w] => w
  | w :: ws => w ++ sep :: joinWith sep ws

/-- Models `" ".join(financial_document_data.split())` from both `_run` methods. -/
def normalizeWs (s : String) : String := String.mk (joinWith ' ' (splitWsAux [] s.data))

/-- The four extraction categories of the metric extractor. -/
inductive Category where
  | revenue
  | profit
  | debt
  | asset

/-- Case-insensitive literal prefix match (the pattern is lowercase). -/
def stripPrefixCI : List Char → List Char → Option (List Char)
  | [], cs => some cs
  | _ :: _, [] => none
  | p :: ps, c :: cs => if c.toLower = p then stripPrefixCI ps cs else none

/-- Match the label part of a category's regex at the current position,
returning the remaining text.  For `revenue[s]?\s+` the optional `s` and
the mandatory whitespace run are consumed; for the other three patterns
the label alternation alone is consumed. -/
def matchLabel : Category → List Char → Option (List Char)
  | Category.revenue, cs =>
    match stripPrefixCI ("revenue".data) cs with
    | none => none
    | some r1 =>
      match (match r1 with
             | c :: t => if c.toLower = 's' then t else c :: t
             | [] => []) with
      | c :: t => if pyIsSpace c then some (t.dropWhile pyIsSpace) else none
      | [] => none
  | Category.profit, cs =>
    match stripPrefixCI ("net income".data) cs with
    | some r => some r
    | none => stripPrefixCI ("profit".data) cs
  | Category.debt, cs =>
    match stripPrefixCI ("debt".data) cs with
    | some r => some r
    | none => stripPrefixCI ("liabilities".data) cs
  | Category.asset, cs =>
    match stripPrefixCI ("asset".data) cs with
    | none => none
    | some r1 =>
      match r1 with
      | c :: t => some (if c.toLower = 's' then t else c :: t)
      | [] => some []

/-- Maximal prefix of `[\d,.]` characters (the greedy capture `([\d,.]+)`),
with the remaining text. -/
def spanNum : List Char → List Char × List Char
  | [] => ([], [])
  | c :: rest =>
    if isNumChar c then
      let p := spanNum rest
      (c :: p.1, p.2)
    else ([], c :: rest)

/-- Match `\$?([\d,.]+)` at the current position: optional dollar sign,
then a non-empty captured numeral.  Returns (capture, rest). -/
def tailMatch : List Char → Option (List Char × List Char)
  | [] => none
  | c :: rest =>
    if c = '$' then
      let p := spanNum rest
      if p.1 = [] then none else some p
    else
      let p := spanNum (c :: rest)
      if p.1 = [] then none else some p

/-- The lazy `[\w\s]*?` before `\$?([\d,.]+)`: try the tail at the
current position first; otherwise consume one word/space character and
retry; fail on any other character. -/
def lazySkip : List Char → Option (List Char × List Char)
  | [] => none
  | c :: rest =>
    match tailMatch (c :: rest) with
    | some r => some r
    | none => if pyIsWord c || pyIsSpace c then lazySkip rest else none

/-- One full-pattern match attempt at the current position. -/
def matchAt (cat : Category) (cs : List Char) : Option (List Char × List Char) :=
  match matchLabel cat cs with
  | none => none
  | some r => lazySkip r

/-- The `re.findall` scan: try a match at every position left to right,
resuming after each match.  Fuel equals the scanned length; every step
(match or single-character advance) consumes at least one character, so
fuel never runs out when started at the text's length. -/
def scanAux (cat : Category) : Nat → List Char → List (List Char)
  | 0, _ => []
  | _ + 1, [] => []
  | f + 1, c :: rest =>
    match matchAt cat (c :: rest) with
    | some (cap, after) => cap :: scanAux cat f after
    | none => scanAux cat f rest

/-- All captured numerals for a category, in document order
(`revenue_matches` / `profit_matches` / `debt_matches` / `asset_matches`). -/
def rawCaptures (pd : String) (cat : Category) : List (List Char) :=
  scanAux cat pd.data.length pd.data

/-- Models `s.replace(",", "")` on a captured numeral. -/
def stripCommas (l : List Char) : List Char := l.filter (fun c => c ≠ ',')

/-- Python `str.isdigit` (ASCII part): non-empty and all digits. -/
def pyIsDigitL (l : List Char) : Bool := !l.isEmpty && l.all Char.isDigit

/-- Captures surviving the `... .replace(",", "").isdigit()` filter. -/
def validCaptures (pd : String) (cat : Category) : List (List Char) :=
  (rawCaptures pd cat).filter (fun cap => pyIsDigitL (stripCommas cap))

/-- Decimal value of a digit character. -/
def digitVal (c : Char) : Nat := c.toNat - 48

/-- Models `float(s.replace(",", ""))` on a surviving (all-digit) numeral,
represented exactly. -/
def parseNat (l : List Char) : Nat := l.foldl (fun acc c => 10 * acc + digitVal c) 0

/-- The per-category extracted list (`revenues` / `profits` / `debts` /
`assets` in the source). -/
def extractNums (pd : String) (cat : Category) : List Nat :=
  (validCaptures pd cat).map (fun cap => parseNat (stripCommas cap))

/-- Models `statistics.mean` over an extracted list (call sites are all guarded
by non-emptiness in the source). -/
def meanQ (l : List Nat) : ℚ := (l.sum : ℚ) / (l.length : ℚ)

/-- Case folding used by `processed_data.lower()` (ASCII part). -/
def lowerL (l : List Char) : List Char := l.map Char.toLower

/-- ASCII prefix test on character lists. -/
def isPrefixOfL : List Char → List Char → Bool
  | [], _ => true
  | _ :: _, [] => false
  | a :: as, b :: bs => (a = b) && isPrefixOfL as bs

/-- Substring presence (`word in text` in Python). -/
def containsSub (needle : List Char) : List Char → Bool
  | [] => isPrefixOfL needle []
  | c :: rest => isPrefixOfL needle (c :: rest) || containsSub needle rest

/-- Python `str.count`: non-overlapping occurrence count, scanning left
to right and skipping past each match.  Fuel equals the text length. -/
def countOccAux (needle : List Char) : Nat → List Char → Nat
  | 0, _ => 0
  | _ + 1, [] => 0
  | f + 1, c :: rest =>
    if isPrefixOfL needle (c :: rest) then
      1 + countOccAux needle f (rest.drop (needle.length - 1))
    else countOccAux needle f rest

/-- Models `text.count(word)` for a non-empty needle. -/
def countOcc (needle hay : List Char) : Nat := countOccAux needle hay.length hay

/-- The `positive_keywords` list from `InvestmentTool._run`. -/
def positiveKeywords : List String :=
  ["growth", "expansion", "profit", "strong", "increase", "positive"]

/-- The `negative_keywords` list from `InvestmentTool._run`. -/
def negativeKeywords : List String :=
  ["loss", "decline", "risk", "decrease", "negative", "litigation"]

/-- Models `positive_hits = sum(processed_data.lower().count(word) for word in positive_keywords)`. -/
def positiveHits (pd : String) : Nat :=
  (positiveKeywords.map (fun w => countOcc w.data (lowerL pd.data))).sum

/-- The `negative_hits` count in `InvestmentTool._run`. -/
def negativeHits (pd : String) : Nat :=
  (negativeKeywords.map (fun w => countOcc w.data (lowerL pd.data))).sum

/-- The `market_risks` list from `RiskTool._run`. -/
def marketRisks : List String :=
  ["competition", "inflation", "recession", "regulation", "currency", "volatility"]

/-- The `operational_risks` list from `RiskTool._run`. -/
def operationalRisks : List String :=
  ["lawsuit", "litigation", "supply chain", "strike", "fraud", "management failure"]

/-- The `negative_signals` list from `RiskTool._run`. -/
def negativeSignals : List String :=
  ["loss", "decline", "uncertain", "risk", "default", "bankruptcy", "crisis"]

/-- Models `[word for word in vocab if word in processed_data.lower()]`. -/
def vocabHits (vocab : List String) (pd : String) : List String :=
  vocab.filter (fun w => containsSub w.data (lowerL pd.data))

/-- Round a rational to the nearest integer, ties to even (the rounding
of Python's fixed-point float formatting). -/
def roundHalfEvenQ (r : ℚ) : ℤ :=
  let f := ⌊r⌋
  let d := r - (f : ℚ)
  if d < 1 / 2 then f
  else if 1 / 2 < d then f + 1
  else if f % 2 = 0 then f else f + 1

/-- Decimal digit character. -/
def digitChar (n : Nat) : Char := Char.ofNat (48 + n % 10)

/-- Decimal digits of a natural number (most significant first). -/
def natDigitsAux : Nat → Nat → List Char
  | 0, _ => []
  | _ + 1, 0 => []
  | f + 1, n => natDigitsAux f (n / 10) ++ [digitChar (n % 10)]

/-- Decimal digit string of a natural number. -/
def natDigits (n : Nat) : List Char := if n = 0 then ['0'] else natDigitsAux (n + 1) n

/-- Insert thousands separators into a reversed digit list. -/
def group3Aux : List Char → List Char
  | a :: b :: c :: d :: rest => a :: b :: c :: ',' :: group3Aux (d :: rest)
  | l => l

/-- Comma thousands grouping, as in Python's `,` format flag. -/
def groupDigits (ds : List Char) : List Char := (group3Aux ds.reverse).reverse

/-- Python `f"{x:,.2f}"` / `f"{x:.2f}"` on the (exact rational) value:
two decimals, half-even rounding, optional thousands grouping. -/
def fmtFixed2 (q : ℚ) (grouped : Bool) : String :=
  let n := roundHalfEvenQ (q * 100)
  let sign := if n < 0 then "-" else ""
  let m := n.natAbs
  let ip := if grouped then groupDigits (natDigits (m / 100)) else natDigits (m / 100)
  let fp := [digitChar (m / 10 % 10), digitChar (m % 10)]
  sign ++ String.mk ip ++ "." ++ String.mk fp

/-- Models `f"{x:,.2f}"`. -/
def fmtMoney (q : ℚ) : String := fmtFixed2 q true

/-- Models `f"{x:.2f}"`. -/
def fmt2 (q : ℚ) : String := fmtFixed2 q false

/-- Models `"\n".join(insights)`. -/
def joinLines (ls : List String) : String := String.intercalate "\n" ls

/-- Models `", ".join(hits)`. -/
def joinComma (ls : List String) : String := String.intercalate ", " ls

deriving instance DecidableEq for Except

/-- Step 3 first block of `InvestmentTool._run` (lines 77-83): average
revenue, average profit and profit margin lines when both lists are
non-empty; the margin division is guarded by `if avg_revenue else 0`. -/
def investBlock1 (pd : String) : List String :=
  let revenues := extractNums pd Category.revenue
  let profits := extractNums pd Category.profit
  if revenues ≠ [] ∧ profits ≠ [] then
    let avgR := meanQ revenues
    let avgP := meanQ profits
    let pm := if avgR = 0 then 0 else avgP / avgR * 100
    ["📊 Average Revenue: $" ++ fmtMoney avgR,
     "📊 Average Profit: $" ++ fmtMoney avgP,
     "📊 Profit Margin: " ++ fmt2 pm ++ "%"]
  else []

/-- Step 3 second block of `InvestmentTool._run` (lines 85-89).  The
source guards the division only by `if profits` — which is already true
inside `if debts and profits:` — so a zero profit mean reaches
`avg_debt / 0` and raises `ZeroDivisionError`, modelled as `Except.error ()`. -/
def investBlock2 (pd : String) : Except Unit (List String) :=
  let profits := extractNums pd Category.profit
  let debts := extractNums pd Category.debt
  if debts ≠ [] ∧ profits ≠ [] then
    if meanQ profits = 0 then Except.error ()
    else
      Except.ok ["⚖️ Avg Debt: $" ++ fmtMoney (meanQ debts),
                 "⚖️ Debt-to-Income Ratio: " ++ fmt2 (meanQ debts / meanQ profits)]
  else Except.ok []

/-- Step 4 of `InvestmentTool._run` (lines 95-103): keyword sentiment. -/
def investSentiment (pd : String) : String :=
  if positiveHits pd > negativeHits pd then "✅ Positive financial outlook detected."
  else if negativeHits pd > positiveHits pd then "⚠️ Negative financial risks detected."
  else "ℹ️ Neutral outlook."

/-- The margin recomputed at line 110:
`(statistics.mean(profits) / statistics.mean(revenues)) * 100`. -/
def investMargin (pd : String) : ℚ :=
  meanQ (extractNums pd Category.profit) / meanQ (extractNums pd Category.revenue) * 100

/-- Step 5 of `InvestmentTool._run` (lines 108-114).  Line 110 divides
by `statistics.mean(revenues)` with no zero guard, so a zero revenue
mean raises `ZeroDivisionError`, modelled as `Except.error ()`. -/
def investRecommendationE (pd : String) : Except Unit String :=
  let revenues := extractNums pd Category.revenue
  let profits := extractNums pd Category.profit
  if profits ≠ [] ∧ revenues ≠ [] then
    if meanQ revenues = 0 then Except.error ()
    else if investMargin pd > 15 ∧ positiveHits pd > negativeHits pd then Except.ok "Buy"
    else if investMargin pd < 5 ∨ negativeHits pd > positiveHits pd then Except.ok "Sell"
    else Except.ok "Hold"
  else Except.ok "Hold"

/-- The full `insights` list built by `InvestmentTool._run`, in source
order (metric blocks, sentiment, recommendation); an error of either
division aborts the call as in Python, with line 87's potential raise
occurring before line 110's. -/
def investInsights (pd : String) : Except Unit (List String) :=
  match investBlock2 pd with
  | Except.error e => Except.error e
  | Except.ok b2 =>
    match investRecommendationE pd with
    | Except.error e => Except.error e
    | Except.ok recm =>
      Except.ok (investBlock1 pd ++ b2 ++ [investSentiment pd] ++
                 ["📌 Investment Recommendation: " ++ recm])

/-- Models `InvestmentTool._run`: normalize, analyze, join with the final
fallback `"\n".join(insights) if insights else "No meaningful financial insights extracted."`. -/
def investmentRun (txt : String) : Except Unit String :=
  match investInsights (normalizeWs txt) with
  | Except.error e => Except.error e
  | Except.ok ins =>
    Except.ok (if ins = [] then "No meaningful financial insights extracted." else joinLines ins)

/-- Models `debt_to_assets = (avg_debt / avg_assets) if avg_assets else 0` from
`RiskTool._run` line 152. -/
def debtToAssets (assets debts : List Nat) : ℚ :=
  if meanQ assets = 0 then 0 else meanQ debts / meanQ assets

/-- Step 3 solvency block of `RiskTool._run` (lines 149-159): ratio line
plus exactly one classification line when both lists are non-empty. -/
def solvencyLines (assets debts : List Nat) : List String :=
  if assets ≠ [] ∧ debts ≠ [] then
    let dta := debtToAssets assets debts
    ["⚖️ Debt-to-Assets Ratio: " ++ fmt2 dta,
     if dta > 3 / 5 then "❌ High solvency risk: Company relies heavily on debt."
     else if dta > 2 / 5 then "⚠️ Moderate solvency risk: Debt levels may be concerning."
     else "✅ Healthy solvency position."]
  else []

/-- Debt-servicing block of `RiskTool._run` (lines 161-171): the division
is guarded by `if avg_profit else float("inf")`; the infinite sentinel
formats as `inf` and satisfies `> 4`. -/
def debtIncomeLines (profits debts : List Nat) : List String :=
  if profits ≠ [] ∧ debts ≠ [] then
    if meanQ profits = 0 then
      ["⚖️ Debt-to-Income Ratio: inf",
       "❌ High debt servicing risk: Profits may not cover obligations."]
    else
      let dti := meanQ debts / meanQ profits
      ["⚖️ Debt-to-Income Ratio: " ++ fmt2 dti,
       if dti > 4 then "❌ High debt servicing risk: Profits may not cover obligations."
       else if dti > 2 then "⚠️ Moderate debt servicing risk."
       else "✅ Debt levels manageable relative to income."]
  else []

/-- Step 4 of `RiskTool._run` (lines 178-187): one line per non-empty
vocabulary, listing matched words in vocabulary order. -/
def riskKeywordLines (pd : String) : List String :=
  (if vocabHits marketRisks pd ≠ [] then
     ["📉 Market Risks detected: " ++ joinComma (vocabHits marketRisks pd)] else []) ++
  (if vocabHits operationalRisks pd ≠ [] then
     ["🏭 Operational Risks detected: " ++ joinComma (vocabHits operationalRisks pd)] else []) ++
  (if vocabHits negativeSignals pd ≠ [] then
     ["⚠️ Negative Signals: " ++ joinComma (vocabHits negativeSignals pd)] else [])

/-- The `insights` list of `RiskTool._run` before the final rating line. -/
def riskInsights (pd : String) : List String :=
  solvencyLines (extractNums pd Category.asset) (extractNums pd Category.debt) ++
  debtIncomeLines (extractNums pd Category.profit) (extractNums pd Category.debt) ++
  riskKeywordLines pd

/-- Step 5 risk score (lines 190-192): `+2` if any insight line contains
the high marker, `+1` if any contains the medium marker. -/
def riskScore (ins : List String) : Nat :=
  (if ins.any (fun i => containsSub ("❌".data) i.data) then 2 else 0) +
  (if ins.any (fun i => containsSub ("⚠️".data) i.data) then 1 else 0)

/-- Overall rating from the score (lines 194-199). -/
def riskOverall (score : Nat) : String :=
  if score ≥ 3 then "🔴 High Risk Investment"
  else if score = 2 then "🟠 Medium Risk Investment"
  else "🟢 Low Risk Investment"

/-- Models `RiskTool._run`: all divisions are guarded in the source, so the
result is a total string; the rating line is appended before the
emptiness fallback test, exactly as at lines 201-203. -/
def riskRun (txt : String) : String :=
  let pd := normalizeWs txt
  let ins := riskInsights pd ++
    ["📌 Overall Risk Rating: " ++ riskOverall (riskScore (riskInsights pd))]
  if ins = [] then "No significant risks detected." else joinLines ins

/-- Two invocations of an engine on the same input (the engines keep no
state between calls: each result depends only on the argument). -/
def runTwice {α : Type} (f : String → α) (t : String) : α × α := (f t, f t)

theorem isPrefixOfL_append_of {a b : List Char} (c : List Char) (h : isPrefixOfL a b = true) :
    isPrefixOfL a (b ++ c) = true := by
  induction a generalizing b with
  | nil => simp [isPrefixOfL]
  | cons x xs ih =>
    cases b with
    | nil => simp [isPrefixOfL] at h
    | cons y ys =>
      simp only [isPrefixOfL, Bool.and_eq_true, decide_eq_true_eq] at h ⊢
      exact ⟨h.1, ih (b := ys) h.2⟩

theorem containsSub_of_isPrefixOfL {n h : List Char} (hp : isPrefixOfL n h = true) :
    containsSub n h = true := by
  cases h with
  | nil => simpa [containsSub] using hp
  | cons c rest => simp [containsSub, hp]

theorem stripPrefixCI_isPrefixOfL {p cs r : List Char} (h : stripPrefixCI p cs = some r) :
    isPrefixOfL p (lowerL cs) = true := by
  induction p generalizing cs r with
  | nil => simp [isPrefixOfL]
  | cons x xs ih =>
    cases cs with
    | nil => simp [stripPrefixCI] at h
    | cons c cs' =>
      simp only [stripPrefixCI] at h
      by_cases hc : c.toLower = x
      · simp only [if_pos hc] at h
        simp only [lowerL, List.map_cons, isPrefixOfL, hc, decide_True, Bool.true_and]
        exact ih h
      · simp [if_neg hc] at h

/-- The label-occurrence hypothesis for one category: none of its label
words occurs (case-insensitively) in the text. -/
def labelFree : Category → List Char → Prop
  | Category.revenue, cs => containsSub ("revenue".data) (lowerL cs) = false
  | Category.profit, cs => containsSub ("net income".data) (lowerL cs) = false ∧
      containsSub ("profit".data) (lowerL cs) = false
  | Category.debt, cs => containsSub ("debt".data) (lowerL cs) = false ∧
      containsSub ("liabilities".data) (lowerL cs) = false
  | Category.asset, cs => containsSub ("asset".data) (lowerL cs) = false

theorem matchLabel_none_of_labelFree {cat : Category} {cs : List Char}
    (h : labelFree cat cs) : matchLabel cat cs = none := by
  cases cat with
  | revenue =>
    simp only [labelFree] at h
    simp only [matchLabel]
    cases hs : stripPrefixCI ("revenue".data) cs with
    | none => rfl
    | some r =>
      have := containsSub_of_isPrefixOfL (stripPrefixCI_isPrefixOfL hs)
      rw [this] at h
      exact absurd h (by simp)
  | profit =>
    simp only [labelFree] at h
    simp only [matchLabel]
    cases hs : stripPrefixCI ("net income".data) cs with
    | some r =>
      have := containsSub_of_isPrefixOfL (stripPrefixCI_isPrefixOfL hs)
      rw [this] at h
      exact absurd h.1 (by simp)
    | none =>
      cases hs2 : stripPrefixCI ("profit".data) cs with
      | none => rfl
      | some r =>
        have := containsSub_of_isPrefixOfL (stripPrefixCI_isPrefixOfL hs2)
        rw [this] at h
        exact absurd h.2 (by simp)
  | debt =>
    simp only [labelFree] at h
    simp only [matchLabel]
    cases hs : stripPrefixCI ("debt".data) cs with
    | some r =>
      have := containsSub_of_isPrefixOfL (stripPrefixCI_isPrefixOfL hs)
      rw [this] at h
      exact absurd h.1 (by simp)
    | none =>
      cases hs2 : stripPrefixCI ("liabilities".data) cs with
      | none => rfl
      | some r =>
        have := containsSub_of_isPrefixOfL (stripPrefixCI_isPrefixOfL hs2)
        rw [this] at h
        exact absurd h.2 (by simp)
  | asset =>
    simp only [labelFree] at h
    simp only [matchLabel]
    cases hs : stripPrefixCI ("asset".data) cs with
    | none => rfl
    | some r =>
      have := containsSub_of_isPrefixOfL (stripPrefixCI_isPrefixOfL hs)
      rw [this] at h
      exact absurd h (by simp)

theorem labelFree_tail {cat : Category} {c : Char} {rest : List Char}
    (h : labelFree cat (c :: rest)) : labelFree cat rest := by
  have step : ∀ w : List Char, containsSub w (lowerL (c :: rest)) = false →
      containsSub w (lowerL rest) = false := by
    intro w hw
    have : lowerL (c :: rest) = c.toLower :: lowerL rest := rfl
    rw [this, containsSub] at hw
    exact (Bool.or_eq_false_iff.mp hw).2
  cases cat with
  | revenue => exact step _ h
  | profit => exact ⟨step _ h.1, step _ h.2⟩
  | debt => exact ⟨step _ h.1, step _ h.2⟩
  | asset => exact step _ h

theorem scanAux_nil_of_labelFree (cat : Category) (fuel : Nat) (cs : List Char)
    (h : labelFree cat cs) : scanAux cat fuel cs = [] := by
  induction fuel generalizing cs with
  | zero => rfl
  | succ f ih =>
    cases cs with
    | nil => rfl
    | cons c rest =>
      have hm : matchAt cat (c :: rest) = none := by
        simp [matchAt, matchLabel_none_of_labelFree h]
      simp only [scanAux, hm]
      exact ih rest (labelFree_tail h)

theorem extractNums_nil_of_labelFree {cat : Category} {pd : String}
    (h : labelFree cat pd.data) : extractNums pd cat = [] := by
  unfold extractNums validCaptures rawCaptures
  rw [scanAux_nil_of_labelFree cat _ _ h]
  rfl

theorem pyIsDigitL_false_of_dot {l : List Char} (h : '.' ∈ l) : pyIsDigitL l = false := by
  unfold pyIsDigitL
  have : l.all Char.isDigit = false := by
    by_contra hb
    have hall := List.all_eq_true.mp (Bool.of_not_eq_false hb)
    have := hall '.' h
    simp [Char.isDigit] at this
  simp [this]

set_option maxRecDepth 10000

/-- C1: the claim states both engines never raise and that every
division by a possibly-zero mean is guarded.  `InvestmentTool._run`
violates this: on "profit 0 debt 100" the debt-to-income division at
line 87 divides by the zero profit mean (its guard `if profits` only
repeats the non-emptiness test), and on "revenue 0 profit 5" the margin
recomputation at line 110 divides by the zero revenue mean with no
guard.  Both calls raise `ZeroDivisionError` (modelled `Except.error ()`). -/
theorem investmentRun_zero_mean_division_raises :
    investmentRun "profit 0 debt 100" = Except.error () ∧
    investmentRun "revenue 0 profit 5" = Except.error () := by
  constructor
  · with_unfolding_all decide
  · with_unfolding_all decide

/-- C2 (counterexample): the empty text matches no vocabulary keyword
and yields no extracted number for any category, yet neither engine
returns its fallback string: the sentiment/recommendation lines (resp.
the overall rating line) are always appended, so the insights list is
never empty. -/
theorem fallback_counterexample_empty_text :
    extractNums (normalizeWs "") Category.revenue = [] ∧
    extractNums (normalizeWs "") Category.profit = [] ∧
    extractNums (normalizeWs "") Category.debt = [] ∧
    extractNums (normalizeWs "") Category.asset = [] ∧
    positiveHits (normalizeWs "") = 0 ∧
    negativeHits (normalizeWs "") = 0 ∧
    vocabHits marketRisks (normalizeWs "") = [] ∧
    vocabHits operationalRisks (normalizeWs "") = [] ∧
    vocabHits negativeSignals (normalizeWs "") = [] ∧
    investmentRun "" ≠ Except.ok "No meaningful financial insights extracted." ∧
    riskRun "" ≠ "No significant risks detected." := by
  refine ⟨rfl, rfl, rfl, rfl, rfl, rfl, rfl, rfl, rfl, ?_, ?_⟩
  · intro h
    exact absurd (Except.ok.inj h) (by decide)
  · intro h
    exact absurd h (by decide)

/-- C2 (amended): when no vocabulary keyword matches and no number is
extracted for any category, `InvestmentTool._run` returns the neutral
sentiment plus the Hold recommendation and `RiskTool._run` returns the
low-risk rating line; the fallback strings are returned only when the
insights list is empty, which never happens because these lines are
always appended. -/
theorem no_signal_outputs (txt : String)
    (hrev : extractNums (normalizeWs txt) Category.revenue = [])
    (hpro : extractNums (normalizeWs txt) Category.profit = [])
    (hdeb : extractNums (normalizeWs txt) Category.debt = [])
    (hass : extractNums (normalizeWs txt) Category.asset = [])
    (hpos : positiveHits (normalizeWs txt) = 0)
    (hneg : negativeHits (normalizeWs txt) = 0)
    (hmk : vocabHits marketRisks (normalizeWs txt) = [])
    (hop : vocabHits operationalRisks (normalizeWs txt) = [])
    (hns : vocabHits negativeSignals (normalizeWs txt) = []) :
    investmentRun txt = Except.ok "ℹ️ Neutral outlook.\n📌 Investment Recommendation: Hold" ∧
    riskRun txt = "📌 Overall Risk Rating: 🟢 Low Risk Investment" := by
  have h1 : investBlock1 (normalizeWs txt) = [] := by
    simp [investBlock1, hrev, hpro]
  have h2 : investBlock2 (normalizeWs txt) = Except.ok [] := by
    simp [investBlock2, hdeb, hpro]
  have h3 : investRecommendationE (normalizeWs txt) = Except.ok "Hold" := by
    simp [investRecommendationE, hpro, hrev]
  have h4 : investSentiment (normalizeWs txt) = "ℹ️ Neutral outlook." := by
    simp [investSentiment, hpos, hneg]
  have r1 : riskInsights (normalizeWs txt) = [] := by
    simp [riskInsights, solvencyLines, debtIncomeLines, riskKeywordLines,
      hass, hdeb, hpro, hmk, hop, hns]
  constructor
  · simp only [investmentRun, investInsights, h1, h2, h3, h4]
    rfl
  · simp only [riskRun, r1]
    rfl

/-- C5: a captured numeral that still contains a decimal point after
comma-stripping fails the integer-only `isdigit` validity check and is
excluded from the surviving captures (hence from the extracted list) for
every category, in both engines' shared extractor. -/
theorem decimal_numeral_excluded (pd : String) (cat : Category) (cap : List Char)
    (hmem : cap ∈ rawCaptures pd cat) (hdot : '.' ∈ stripCommas cap) :
    pyIsDigitL (stripCommas cap) = false ∧ cap ∉ validCaptures pd cat := by
  have hfalse := pyIsDigitL_false_of_dot hdot
  refine ⟨hfalse, ?_⟩
  intro hin
  have := (List.mem_filter.mp hin).2
  rw [hfalse] at this
  exact absurd this (by simp)

/-- C5 witness: in "revenue $12.50" the revenue pattern captures
`12.50`, which is dropped by the validity filter. -/
theorem decimal_numeral_excluded_witness :
    pyIsDigitL (stripCommas ['1', '2', '.', '5', '0']) = false ∧
    ['1', '2', '.', '5', '0'] ∉ validCaptures (normalizeWs "revenue $12.50") Category.revenue :=
  decimal_numeral_excluded (normalizeWs "revenue $12.50") Category.revenue
    ['1', '2', '.', '5', '0'] (by decide) (by decide)

/-- C6: on the sample text the extractor returns revenues `[1200, 800]`
and profits `[100, 50]` in document order, with mean revenue 1000, mean
profit 75 and profit margin 7.5%. -/
theorem sample_extraction_means_margin :
    extractNums (normalizeWs "revenue $1,200 and revenue $800 and net income $100 and net income $50") Category.revenue = [1200, 800] ∧
    extractNums (normalizeWs "revenue $1,200 and revenue $800 and net income $100 and net income $50") Category.profit = [100, 50] ∧
    meanQ [1200, 800] = 1000 ∧
    meanQ [100, 50] = 75 ∧
    investMargin (normalizeWs "revenue $1,200 and revenue $800 and net income $100 and net income $50") = 7.5 := by
  refine ⟨by decide, by decide, ?_, ?_, ?_⟩
  · with_unfolding_all decide
  · with_unfolding_all decide
  · with_unfolding_all decide

/-- C7: a text whose normalized form contains no occurrence of any
category label word (revenue, net income, profit, debt, liabilities,
asset — case-insensitively) yields an empty extracted list for every
category, and the absent categories produce empty lists rather than an
error in both engines (`InvestmentTool._run` returns `Except.ok`;
`RiskTool._run` is total). -/
theorem no_label_empty_extraction (txt : String)
    (h1 : labelFree Category.revenue (normalizeWs txt).data)
    (h2 : labelFree Category.profit (normalizeWs txt).data)
    (h3 : labelFree Category.debt (normalizeWs txt).data)
    (h4 : labelFree Category.asset (normalizeWs txt).data) :
    extractNums (normalizeWs txt) Category.revenue = [] ∧
    extractNums (normalizeWs txt) Category.profit = [] ∧
    extractNums (normalizeWs txt) Category.debt = [] ∧
    extractNums (normalizeWs txt) Category.asset = [] ∧
    investmentRun txt ≠ Except.error () := by
  have e1 := extractNums_nil_of_labelFree h1
  have e2 := extractNums_nil_of_labelFree h2
  have e3 := extractNums_nil_of_labelFree h3
  have e4 := extractNums_nil_of_labelFree h4
  refine ⟨e1, e2, e3, e4, ?_⟩
  have b2 : investBlock2 (normalizeWs txt) = Except.ok [] := by
    simp [investBlock2, e2, e3]
  have rE : investRecommendationE (normalizeWs txt) = Except.ok "Hold" := by
    simp [investRecommendationE, e1, e2]
  simp [investmentRun, investInsights, b2, rE]

/-- C7 witness: "hello world 42" contains no label word. -/
theorem no_label_empty_extraction_witness :
    extractNums (normalizeWs "hello world 42") Category.revenue = [] ∧
    extractNums (normalizeWs "hello world 42") Category.profit = [] ∧
    extractNums (normalizeWs "hello world 42") Category.debt = [] ∧
    extractNums (normalizeWs "hello world 42") Category.asset = [] ∧
    investmentRun "hello world 42" ≠ Except.error () :=
  no_label_empty_extraction "hello world 42" rfl ⟨rfl, rfl⟩ ⟨rfl, rfl⟩ rfl

/-- C8: both engines are deterministic — two invocations on the same
text give the same output; the embedding is a pure function of the text
since the source reads no state outside its argument. -/
theorem engines_deterministic (txt : String) :
    (runTwice investmentRun txt).1 = (runTwice investmentRun txt).2 ∧
    (runTwice riskRun txt).1 = (runTwice riskRun txt).2 :=
  ⟨rfl, rfl⟩

/-- C3: with non-empty revenue and profit lists and non-zero mean
revenue, the recommendation is Buy exactly when the margin strictly
exceeds 15 and positive keyword hits strictly exceed negative hits; a
margin of exactly 15 is never Buy; failing the Buy test, Sell holds
exactly when margin < 5 or negative hits exceed positive hits, and
otherwise the recommendation defaults to Hold. -/
theorem buy_recommendation_iff (txt : String)
    (hrev : extractNums (normalizeWs txt) Category.revenue ≠ [])
    (hpro : extractNums (normalizeWs txt) Category.profit ≠ [])
    (hm : ¬ meanQ (extractNums (normalizeWs txt) Category.revenue) = 0) :
    (investRecommendationE (normalizeWs txt) = Except.ok "Buy" ↔
      (investMargin (normalizeWs txt) > 15 ∧
       positiveHits (normalizeWs txt) > negativeHits (normalizeWs txt))) ∧
    (investMargin (normalizeWs txt) = 15 →
      investRecommendationE (normalizeWs txt) ≠ Except.ok "Buy") ∧
    (¬ (investMargin (normalizeWs txt) > 15 ∧
        positiveHits (normalizeWs txt) > negativeHits (normalizeWs txt)) →
      ((investRecommendationE (normalizeWs txt) = Except.ok "Sell" ↔
        (investMargin (normalizeWs txt) < 5 ∨
         negativeHits (normalizeWs txt) > positiveHits (normalizeWs txt))) ∧
       (¬ (investMargin (normalizeWs txt) < 5 ∨
           negativeHits (normalizeWs txt) > positiveHits (normalizeWs txt)) →
        investRecommendationE (normalizeWs txt) = Except.ok "Hold"))) := by
  have hre : investRecommendationE (normalizeWs txt) =
      (if investMargin (normalizeWs txt) > 15 ∧
          positiveHits (normalizeWs txt) > negativeHits (normalizeWs txt) then Except.ok "Buy"
       else if investMargin (normalizeWs txt) < 5 ∨
          negativeHits (normalizeWs txt) > positiveHits (normalizeWs txt) then Except.ok "Sell"
       else Except.ok "Hold") := by
    simp only [investRecommendationE, if_pos (And.intro hpro hrev), if_neg hm]
  rw [hre]
  by_cases hA : investMargin (normalizeWs txt) > 15 ∧
      positiveHits (normalizeWs txt) > negativeHits (normalizeWs txt)
  · rw [if_pos hA]
    refine ⟨iff_of_true rfl hA, ?_, fun hna => absurd hA hna⟩
    intro h15
    rw [h15] at hA
    exact absurd hA.1 (lt_irrefl 15)
  · rw [if_neg hA]
    by_cases hB : investMargin (normalizeWs txt) < 5 ∨
        negativeHits (normalizeWs txt) > positiveHits (normalizeWs txt)
    · rw [if_pos hB]
      exact ⟨iff_of_false (by decide) hA, fun _ => by decide,
             fun _ => ⟨iff_of_true rfl hB, fun hnb => absurd hB hnb⟩⟩
    · rw [if_neg hB]
      exact ⟨iff_of_false (by decide) hA, fun _ => by decide,
             fun _ => ⟨iff_of_false (by decide) hB, fun _ => rfl⟩⟩

/-- C3 witness: "revenue 100 profit 20 growth" has margin 20 and two
positive hits against zero negative hits, so the recommendation is Buy. -/
theorem buy_recommendation_iff_witness :
    (investRecommendationE (normalizeWs "revenue 100 profit 20 growth") = Except.ok "Buy" ↔
      (investMargin (normalizeWs "revenue 100 profit 20 growth") > 15 ∧
       positiveHits (normalizeWs "revenue 100 profit 20 growth") >
         negativeHits (normalizeWs "revenue 100 profit 20 growth"))) ∧
    (investMargin (normalizeWs "revenue 100 profit 20 growth") = 15 →
      investRecommendationE (normalizeWs "revenue 100 profit 20 growth") ≠ Except.ok "Buy") ∧
    (¬ (investMargin (normalizeWs "revenue 100 profit 20 growth") > 15 ∧
        positiveHits (normalizeWs "revenue 100 profit 20 growth") >
          negativeHits (normalizeWs "revenue 100 profit 20 growth")) →
      ((investRecommendationE (normalizeWs "revenue 100 profit 20 growth") = Except.ok "Sell" ↔
        (investMargin (normalizeWs "revenue 100 profit 20 growth") < 5 ∨
         negativeHits (normalizeWs "revenue 100 profit 20 growth") >
           positiveHits (normalizeWs "revenue 100 profit 20 growth"))) ∧
       (¬ (investMargin (normalizeWs "revenue 100 profit 20 growth") < 5 ∨
           negativeHits (normalizeWs "revenue 100 profit 20 growth") >
             positiveHits (normalizeWs "revenue 100 profit 20 growth")) →
        investRecommendationE (normalizeWs "revenue 100 profit 20 growth") = Except.ok "Hold"))) :=
  buy_recommendation_iff "revenue 100 profit 20 growth" (by decide) (by decide)
    (by with_unfolding_all decide)

/-- C4: with non-empty asset and debt lists, the solvency block appends
the ratio line and exactly one classification: strictly above 0.6 the
high-severity line, in (0.4, 0.6] the medium-severity line, at or below
0.4 the healthy line with no severity marker; a ratio of exactly 0.6 is
classified Moderate, not High. -/
theorem solvency_classification (txt : String)
    (ha : extractNums (normalizeWs txt) Category.asset ≠ [])
    (hd : extractNums (normalizeWs txt) Category.debt ≠ []) :
    (debtToAssets (extractNums (normalizeWs txt) Category.asset)
        (extractNums (normalizeWs txt) Category.debt) > 3 / 5 →
      solvencyLines (extractNums (normalizeWs txt) Category.asset)
          (extractNums (normalizeWs txt) Category.debt) =
        ["⚖️ Debt-to-Assets Ratio: " ++ fmt2 (debtToAssets
            (extractNums (normalizeWs txt) Category.asset)
            (extractNums (normalizeWs txt) Category.debt)),
         "❌ High solvency risk: Company relies heavily on debt."]) ∧
    (2 / 5 < debtToAssets (extractNums (normalizeWs txt) Category.asset)
        (extractNums (normalizeWs txt) Category.debt) ∧
     debtToAssets (extractNums (normalizeWs txt) Category.asset)
        (extractNums (normalizeWs txt) Category.debt) ≤ 3 / 5 →
      solvencyLines (extractNums (normalizeWs txt) Category.asset)
          (extractNums (normalizeWs txt) Category.debt) =
        ["⚖️ Debt-to-Assets Ratio: " ++ fmt2 (debtToAssets
            (extractNums (normalizeWs txt) Category.asset)
            (extractNums (normalizeWs txt) Category.debt)),
         "⚠️ Moderate solvency risk: Debt levels may be concerning."]) ∧
    (debtToAssets (extractNums (normalizeWs txt) Category.asset)
        (extractNums (normalizeWs txt) Category.debt) ≤ 2 / 5 →
      solvencyLines (extractNums (normalizeWs txt) Category.asset)
          (extractNums (normalizeWs txt) Category.debt) =
        ["⚖️ Debt-to-Assets Ratio: " ++ fmt2 (debtToAssets
            (extractNums (normalizeWs txt) Category.asset)
            (extractNums (normalizeWs txt) Category.debt)),
         "✅ Healthy solvency position."]) ∧
    (debtToAssets (extractNums (normalizeWs txt) Category.asset)
        (extractNums (normalizeWs txt) Category.debt) = 3 / 5 →
      solvencyLines (extractNums (normalizeWs txt) Category.asset)
          (extractNums (normalizeWs txt) Category.debt) =
        ["⚖️ Debt-to-Assets Ratio: " ++ fmt2 (debtToAssets
            (extractNums (normalizeWs txt) Category.asset)
            (extractNums (normalizeWs txt) Category.debt)),
         "⚠️ Moderate solvency risk: Debt levels may be concerning."]) := by
  have hsl : solvencyLines (extractNums (normalizeWs txt) Category.asset)
      (extractNums (normalizeWs txt) Category.debt) =
      ["⚖️ Debt-to-Assets Ratio: " ++ fmt2 (debtToAssets
          (extractNums (normalizeWs txt) Category.asset)
          (extractNums (normalizeWs txt) Category.debt)),
       if debtToAssets (extractNums (normalizeWs txt) Category.asset)
            (extractNums (normalizeWs txt) Category.debt) > 3 / 5 then
         "❌ High solvency risk: Company relies heavily on debt."
       else if debtToAssets (extractNums (normalizeWs txt) Category.asset)
            (extractNums (normalizeWs txt) Category.debt) > 2 / 5 then
         "⚠️ Moderate solvency risk: Debt levels may be concerning."
       else "✅ Healthy solvency position."] := by
    simp only [solvencyLines, if_pos (And.intro ha hd)]
  rw [hsl]
  refine ⟨?_, ?_, ?_, ?_⟩
  · intro h
    rw [if_pos h]
  · intro h
    rw [if_neg (not_lt.mpr h.2), if_pos h.1]
  · intro h
    have h1 : ¬ (3 / 5 : ℚ) < debtToAssets (extractNums (normalizeWs txt) Category.asset)
        (extractNums (normalizeWs txt) Category.debt) := by
      refine not_lt.mpr (le_trans h ?_)
      norm_num
    rw [if_neg h1, if_neg (not_lt.mpr h)]
  · intro h
    rw [h]
    rw [if_neg (lt_irrefl ((3 : ℚ) / 5)), if_pos (by norm_num : (2 : ℚ) / 5 < 3 / 5)]

/-- C4 witness: "debt 60 asset 100" gives a debt-to-assets ratio of
exactly 0.6, which is classified Moderate. -/
theorem solvency_classification_witness :
    (debtToAssets (extractNums (normalizeWs "debt 60 asset 100") Category.asset)
        (extractNums (normalizeWs "debt 60 asset 100") Category.debt) > 3 / 5 →
      solvencyLines (extractNums (normalizeWs "debt 60 asset 100") Category.asset)
          (extractNums (normalizeWs "debt 60 asset 100") Category.debt) =
        ["⚖️ Debt-to-Assets Ratio: " ++ fmt2 (debtToAssets
            (extractNums (normalizeWs "debt 60 asset 100") Category.asset)
            (extractNums (normalizeWs "debt 60 asset 100") Category.debt)),
         "❌ High solvency risk: Company relies heavily on debt."]) ∧
    (2 / 5 < debtToAssets (extractNums (normalizeWs "debt 60 asset 100") Category.asset)
        (extractNums (normalizeWs "debt 60 asset 100") Category.debt) ∧
     debtToAssets (extractNums (normalizeWs "debt 60 asset 100") Category.asset)
        (extractNums (normalizeWs "debt 60 asset 100") Category.debt) ≤ 3 / 5 →
      solvencyLines (extractNums (normalizeWs "debt 60 asset 100") Category.asset)
          (extractNums (normalizeWs "debt 60 asset 100") Category.debt) =
        ["⚖️ Debt-to-Assets Ratio: " ++ fmt2 (debtToAssets
            (extractNums (normalizeWs "debt 60 asset 100") Category.asset)
            (extractNums (normalizeWs "debt 60 asset 100") Category.debt)),
         "⚠️ Moderate solvency risk: Debt levels may be concerning."]) ∧
    (debtToAssets (extractNums (normalizeWs "debt 60 asset 100") Category.asset)
        (extractNums (normalizeWs "debt 60 asset 100") Category.debt) ≤ 2 / 5 →
      solvencyLines (extractNums (normalizeWs "debt 60 asset 100") Category.asset)
          (extractNums (normalizeWs "debt 60 asset 100") Category.debt) =
        ["⚖️ Debt-to-Assets Ratio: " ++ fmt2 (debtToAssets
            (extractNums (normalizeWs "debt 60 asset 100") Category.asset)
            (extractNums (normalizeWs "debt 60 asset 100") Category.debt)),
         "✅ Healthy solvency position."]) ∧
    (debtToAssets (extractNums (normalizeWs "debt 60 asset 100") Category.asset)
        (extractNums (normalizeWs "debt 60 asset 100") Category.debt) = 3 / 5 →
      solvencyLines (extractNums (normalizeWs "debt 60 asset 100") Category.asset)
          (extractNums (normalizeWs "debt 60 asset 100") Category.debt) =
        ["⚖️ Debt-to-Assets Ratio: " ++ fmt2 (debtToAssets
            (extractNums (normalizeWs "debt 60 asset 100") Category.asset)
            (extractNums (normalizeWs "debt 60 asset 100") Category.debt)),
         "⚠️ Moderate solvency risk: Debt levels may be concerning."]) :=
  solvency_classification "debt 60 asset 100" (by decide) (by decide)

theorem containsSub_warn_of_append (s : String) :
    containsSub ("⚠️".data) (("⚠️ Negative Signals: " ++ s).data) = true := by
  apply containsSub_of_isPrefixOfL
  rw [String.data_append]
  exact isPrefixOfL_append_of _ (by decide)

/-- C9: the medium-severity test of the risk score also counts the
qualitative Negative Signals line, which carries the same medium marker:
whenever the solvency block appends its high-severity classification
(debt-to-assets strictly above 0.6) and at least one negative-signal
keyword occurs, the risk score is 3 and `RiskTool._run` rates the case
"High Risk Investment", even with no Moderate classification appended. -/
theorem high_marker_negative_signal_high_risk (txt : String)
    (ha : extractNums (normalizeWs txt) Category.asset ≠ [])
    (hd : extractNums (normalizeWs txt) Category.debt ≠ [])
    (hr : debtToAssets (extractNums (normalizeWs txt) Category.asset)
        (extractNums (normalizeWs txt) Category.debt) > 3 / 5)
    (hn : vocabHits negativeSignals (normalizeWs txt) ≠ []) :
    riskScore (riskInsights (normalizeWs txt)) = 3 ∧
    riskRun txt = joinLines (riskInsights (normalizeWs txt) ++
      ["📌 Overall Risk Rating: 🔴 High Risk Investment"]) := by
  have hsl : solvencyLines (extractNums (normalizeWs txt) Category.asset)
      (extractNums (normalizeWs txt) Category.debt) =
      ["⚖️ Debt-to-Assets Ratio: " ++ fmt2 (debtToAssets
          (extractNums (normalizeWs txt) Category.asset)
          (extractNums (normalizeWs txt) Category.debt)),
       "❌ High solvency risk: Company relies heavily on debt."] := by
    simp only [solvencyLines, if_pos (And.intro ha hd), if_pos hr]
  have hmemHigh : "❌ High solvency risk: Company relies heavily on debt." ∈
      riskInsights (normalizeWs txt) := by
    unfold riskInsights
    rw [hsl]
    simp
  have hmemWarn : ("⚠️ Negative Signals: " ++
      joinComma (vocabHits negativeSignals (normalizeWs txt))) ∈
      riskInsights (normalizeWs txt) := by
    unfold riskInsights riskKeywordLines
    rw [if_pos hn]
    simp
  have hxHigh : (riskInsights (normalizeWs txt)).any
      (fun i => containsSub ("❌".data) i.data) = true := by
    rw [List.any_eq_true]
    exact ⟨_, hmemHigh, by decide⟩
  have hxWarn : (riskInsights (normalizeWs txt)).any
      (fun i => containsSub ("⚠️".data) i.data) = true := by
    rw [List.any_eq_true]
    exact ⟨_, hmemWarn, containsSub_warn_of_append _⟩
  have hscore : riskScore (riskInsights (normalizeWs txt)) = 3 := by
    unfold riskScore
    rw [hxHigh, hxWarn]
    rfl
  refine ⟨hscore, ?_⟩
  simp only [riskRun]
  rw [hscore]
  have hne : riskInsights (normalizeWs txt) ++
      ["📌 Overall Risk Rating: " ++ riskOverall 3] ≠ [] := by
    simp
  rw [if_neg hne]
  rfl

/-- C9 witness: "asset 100 debt 70 loss" has ratio 0.7 > 0.6 and the
negative signal "loss", so the overall rating is High Risk. -/
theorem high_marker_negative_signal_high_risk_witness :
    riskScore (riskInsights (normalizeWs "asset 100 debt 70 loss")) = 3 ∧
    riskRun "asset 100 debt 70 loss" = joinLines (riskInsights (normalizeWs "asset 100 debt 70 loss") ++
      ["📌 Overall Risk Rating: 🔴 High Risk Investment"]) :=
  high_marker_negative_signal_high_risk "asset 100 debt 70 loss" (by decide) (by decide)
    (by with_unfolding_all decide) (by decide)

/-- C10: whenever `InvestmentTool._run` completes and recommends Buy,
its sentiment line is the positive one — Buy requires strictly more
positive than negative keyword hits, which is exactly the condition of
the positive sentiment branch — and both lines appear in the returned
insights. -/
theorem buy_implies_positive_sentiment (txt : String) (ls : List String)
    (hok : investInsights (normalizeWs txt) = Except.ok ls)
    (hbuy : investRecommendationE (normalizeWs txt) = Except.ok "Buy") :
    investSentiment (normalizeWs txt) = "✅ Positive financial outlook detected." ∧
    "✅ Positive financial outlook detected." ∈ ls ∧
    "📌 Investment Recommendation: Buy" ∈ ls := by
  have hpos : positiveHits (normalizeWs txt) > negativeHits (normalizeWs txt) := by
    by_contra hng
    simp only [investRecommendationE] at hbuy
    split_ifs at hbuy with h1 h2 h3 h4
    all_goals first
      | exact hng h3.2
      | exact absurd (Except.ok.inj hbuy) (by decide)
  have hsent : investSentiment (normalizeWs txt) =
      "✅ Positive financial outlook detected." := by
    simp only [investSentiment, if_pos hpos]
  refine ⟨hsent, ?_, ?_⟩ <;>
  · cases hb2 : investBlock2 (normalizeWs txt) with
    | error e =>
      rw [investInsights, hb2] at hok
      exact Except.noConfusion hok
    | ok b2 =>
      rw [investInsights, hb2, hbuy] at hok
      have hls := (Except.ok.inj hok).symm
      rw [hls, hsent]
      simp [show ("📌 Investment Recommendation: " ++ "Buy" : String) =
        "📌 Investment Recommendation: Buy" from rfl]

/-- C10 witness: "revenue 100 profit 20 growth" yields a Buy
recommendation and the positive sentiment line in the same output. -/
theorem buy_implies_positive_sentiment_witness :
    investSentiment (normalizeWs "revenue 100 profit 20 growth") =
      "✅ Positive financial outlook detected." ∧
    "✅ Positive financial outlook detected." ∈
      ["📊 Average Revenue: $100.00", "📊 Average Profit: $20.00", "📊 Profit Margin: 20.00%",
       "✅ Positive financial outlook detected.", "📌 Investment Recommendation: Buy"] ∧
    "📌 Investment Recommendation: Buy" ∈
      ["📊 Average Revenue: $100.00", "📊 Average Profit: $20.00", "📊 Profit Margin: 20.00%",
       "✅ Positive financial outlook detected.", "📌 Investment Recommendation: Buy"] :=
  buy_implies_positive_sentiment "revenue 100 profit 20 growth"
    ["📊 Average Revenue: $100.00", "📊 Average Profit: $20.00", "📊 Profit Margin: 20.00%",
     "✅ Positive financial outlook detected.", "📌 Investment Recommendation: Buy"]
    (by with_unfolding_all rfl) (by with_unfolding_all decide)

/-- C2 witness (amended claim): the empty text satisfies every
hypothesis, and both engines return the always-appended lines instead of
the fallback. -/
theorem no_signal_outputs_witness :
    investmentRun "" = Except.ok "ℹ️ Neutral outlook.\n📌 Investment Recommendation: Hold" ∧
    riskRun "" = "📌 Overall Risk Rating: 🟢 Low Risk Investment" :=
  no_signal_outputs "" rfl rfl rfl rfl rfl rfl rfl rfl rfl
